import Mathlib

/-!
Shallow embedding of the site-management service of the tribalCMS repository
(`src/include/service/entities/site_service.js`), together with proofs about
the claims of its specification.

The persistence layer is modelled as a pure list of site records; callbacks
become explicit result structures that record the error/value the callback
receives and the side effects (storage writes, Routing Registry calls) the
operation performed before invoking it.
-/

namespace TribalCMS

/-- A persisted site record, as stored in the `site` collection:
`{_id, uid, displayName, hostname, active}` (the database id is called
`dbId` here). -/
structure SiteRecord where
  dbId : String
  uid : String
  displayName : String
  hostname : String
  active : Bool
deriving DecidableEq, Repr

/-- The persisted `site` collection. -/
abbrev Store := List SiteRecord

/-- Process configuration (`pb.config`): the fields site_service.js reads. -/
structure Config where
  siteName : String
  siteRoot : String
  multisiteEnabled : Bool
  /-- `pb.config.multisite.globalRoot`; the empty string models the
  JavaScript-falsy "not configured" value. -/
  multisiteGlobalRoot : String
deriving DecidableEq, Repr

/-- A JavaScript site-identifier value as it flows through the service:
`undefined`, `null`, or a string. -/
inductive JsId
  | undef
  | null
  | str (s : String)
deriving DecidableEq, Repr

/-- JavaScript truthiness test `!v` for a site identifier: `undefined`,
`null` and the empty string are falsy. -/
def JsId.falsy : JsId → Bool
  | .undef => true
  | .null => true
  | .str s => s == ""

/-- `SiteService.GLOBAL_SITE`. -/
def GLOBAL_SITE : String := "global"

/-- `SiteService.isGlobal(siteid)`: `!siteid || siteid === GLOBAL_SITE`. -/
def isGlobal (siteid : JsId) : Bool :=
  siteid.falsy || siteid == .str GLOBAL_SITE

/-- `SiteService.areEqual(siteA, siteB)`: true when both are global,
otherwise strict equality `===` (which on these values is decidable
equality of `JsId`). -/
def areEqual (siteA siteB : JsId) : Bool :=
  if isGlobal siteA && isGlobal siteB then true
  else siteA == siteB

/-- `dao.loadByValue('uid', siteUid, 'site')` /
`dao.loadByValues({uid: uid}, 'site')`: the first record whose `uid`
matches, or nothing. -/
def loadSiteByUid (store : Store) (uid : String) : Option SiteRecord :=
  store.find? (fun r => r.uid == uid)

/-- The synthesized global record returned by `getByUid` for a
global/empty uid: it has only the three fields built in the source. -/
structure GlobalSiteObject where
  displayName : String
  hostname : String
  uid : String
deriving DecidableEq, Repr

/-- What `getByUid` hands to its callback. -/
inductive GetByUidResult
  | synthesized (g : GlobalSiteObject)
  | loaded (r : Option SiteRecord)
deriving DecidableEq, Repr

/-- One run of `getByUid`: whether a storage query was issued, and the
callback value. -/
structure GetByUidRun where
  storageQueried : Bool
  result : GetByUidResult
deriving DecidableEq, Repr

/-- `SiteService.prototype.getByUid(uid, cb)`: for a falsy or global uid,
answer the synthesized global record without a query; otherwise load the
record from the `site` collection by uid. -/
def getByUid (cfg : Config) (store : Store) (uid : JsId) : GetByUidRun :=
  if uid.falsy || uid == .str GLOBAL_SITE then
    ⟨false, .synthesized ⟨cfg.siteName, cfg.siteRoot, GLOBAL_SITE⟩⟩
  else
    ⟨true, .loaded (store.find? (fun r => JsId.str r.uid == uid))⟩

/-- `SiteService.prototype.getAllSites(cb)`: query with an empty filter. -/
def getAllSites (store : Store) : List SiteRecord := store

/-- `SiteService.prototype.getActiveSites(cb)`: `where {active: true}`. -/
def getActiveSites (store : Store) : List SiteRecord :=
  store.filter (fun r => r.active)

/-- `SiteService.prototype.getInactiveSites(cb)`: `where {active: false}`. -/
def getInactiveSites (store : Store) : List SiteRecord :=
  store.filter (fun r => !r.active)

/-- The object `getSiteMap` passes to its callback. -/
structure SiteMap where
  active : List SiteRecord
  inactive : List SiteRecord
deriving DecidableEq, Repr

/-- `SiteService.prototype.getSiteMap(cb)`: the two queries joined. -/
def getSiteMap (store : Store) : SiteMap :=
  ⟨getActiveSites store, getInactiveSites store⟩

/-- JavaScript's `toLowerCase()` on the embedded strings: lowercase every
character (identical to `String.toLower`, written as a structural map over
the character list so concrete instances evaluate). -/
def jsToLowerCase (s : String) : String := ⟨s.data.map Char.toLower⟩

/-- The exclusion filter built by `getWhere` in
`getExistingDisplayNameHostnameCounts`: when the exclusion id is truthy
(`if (id)`), the record whose database id equals it is excluded. -/
def excludeKeep (id : Option String) (r : SiteRecord) : Bool :=
  match id with
  | some i => if i != "" then r.dbId != i else true
  | none => true

/-- `SiteService.prototype.getExistingDisplayNameHostnameCounts`: two counting
queries over the `site` collection. The display-name query matches the record
against the regular expression `'^' + escapeRegExp(displayName.toLowerCase()) + '$'`
with the case-insensitive flag — i.e. anchored exact match ignoring case,
embedded here as equality of the lowercased strings. The hostname query is an
exact match against `hostname.toLowerCase()`. Records excluded by `getWhere`
are removed from both counts. The result pair is
(display-name count, hostname count). -/
def getExistingDisplayNameHostnameCounts (store : Store)
    (displayName hostname : String) (id : Option String) : Nat × Nat :=
  ((store.filter (fun r =>
      excludeKeep id r && (jsToLowerCase r.displayName == jsToLowerCase displayName))).length,
   (store.filter (fun r =>
      excludeKeep id r && (r.hostname == jsToLowerCase hostname))).length)

/-- `SiteService.prototype.isDisplayNameOrHostnameTaken`: folds
`result |= results[key] > 0` over the two counts, so the answer is truthy
exactly when some count is positive. -/
def isDisplayNameOrHostnameTaken (store : Store)
    (displayName hostname : String) (id : Option String) : Bool :=
  let results := getExistingDisplayNameHostnameCounts store displayName hostname id
  decide (results.1 > 0) || decide (results.2 > 0)

/-- The caller-supplied part of the site object handed to `createSite`
(`active` and `uid` are overwritten by `createSite` itself). -/
structure SiteInput where
  displayName : String
  hostname : String
deriving DecidableEq, Repr

/-- One run of `createSite`: the store after the call and the
`(isTaken, result)` arguments of the callback. -/
structure CreateSiteRun where
  storeAfter : Store
  isTaken : Bool
  savedResult : Option SiteRecord
deriving DecidableEq, Repr

/-- `SiteService.prototype.createSite(site, id, cb)`: forces `active=false`,
assigns a freshly generated uid (`genUid`; the database assigns `genDbId` on
save), runs the uniqueness check, and saves only when it passes. -/
def createSite (store : Store) (genUid genDbId : String)
    (site : SiteInput) (id : Option String) : CreateSiteRun :=
  if isDisplayNameOrHostnameTaken store site.displayName site.hostname id then
    ⟨store, true, none⟩
  else
    let saved : SiteRecord := ⟨genDbId, genUid, site.displayName, site.hostname, false⟩
    ⟨store ++ [saved], false, some saved⟩

/-- How a run of `startAcceptingSiteTraffic` ends: either the callback is
invoked with an `Error` carrying the given message, or execution throws a
`ReferenceError` for the named undeclared variable (the source's success
branch evaluates the undeclared variable `result` as a callback argument). -/
inductive TrafficOutcome
  | callbackError (msg : String)
  | thrownReferenceError (varName : String)
deriving DecidableEq, Repr

/-- One run of `startAcceptingSiteTraffic`: the store after the call, the
Routing Registry calls made (`pb.RequestHandler.activateSite` /
`.deactivateSite`), and how the run ended. -/
structure TrafficRun where
  storeAfter : Store
  registryActivateCalls : List SiteRecord
  registryDeactivateCalls : List SiteRecord
  outcome : TrafficOutcome
deriving DecidableEq, Repr

/-- `SiteService.prototype.startAcceptingSiteTraffic(siteUid, cb)`: loads the
record by uid; missing record fails with "Site not found", an inactive record
fails with "Site not active"; otherwise it calls
`pb.RequestHandler.activateSite(site)` and then evaluates `cb(err, result)`,
where `result` is not declared in any enclosing scope, so the call throws a
`ReferenceError` instead of invoking the callback. -/
def startAcceptingSiteTraffic (store : Store) (siteUid : String) : TrafficRun :=
  match loadSiteByUid store siteUid with
  | none => ⟨store, [], [], .callbackError "Site not found"⟩
  | some site =>
    if !site.active then ⟨store, [], [], .callbackError "Site not active"⟩
    else ⟨store, [site], [], .thrownReferenceError "result"⟩

/-- A site-configuration object as handed to the Routing Registry
(`pb.RequestHandler.loadSite`): the synthesized global entry has exactly
these fields, persisted records are passed with the same shape. -/
structure RouteSiteConfig where
  displayName : String
  uid : String
  hostname : String
  active : Bool
deriving DecidableEq, Repr

/-- View of a persisted record as the configuration the Routing Registry
receives. -/
def SiteRecord.toRouteConfig (r : SiteRecord) : RouteSiteConfig :=
  ⟨r.displayName, r.uid, r.hostname, r.active⟩

/-- The synthesized `GLOBAL_SITE` entry registered by `initSites`:
hostname is `url.parse(globalRoot).host` when multisite is enabled and
`url.parse(siteRoot).host` otherwise (host extraction by the external `url`
module is the parameter `hostOf`), and `active` is false exactly when
multisite is enabled. -/
def globalRouteEntry (hostOf : String → String) (cfg : Config) : RouteSiteConfig :=
  ⟨GLOBAL_SITE, GLOBAL_SITE,
   if cfg.multisiteEnabled then hostOf cfg.multisiteGlobalRoot else hostOf cfg.siteRoot,
   !cfg.multisiteEnabled⟩

/-- One run of `initSites`: whether the store was queried, the
`pb.RequestHandler.loadSite` calls made in order, and the `(err, ok)`
arguments of the callback. -/
structure InitSitesRun where
  queriedStore : Bool
  loadSiteCalls : List RouteSiteConfig
  cbError : Option String
  cbOk : Bool
deriving DecidableEq, Repr

/-- `SiteService.prototype.initSites(cb)`: fails fast when multisite is
enabled without a configured global root (`pb.config.multisite.globalRoot`
falsy); otherwise loads every persisted site, registers each regardless of
its `active` flag, registers the synthesized global entry, and reports
success. -/
def initSites (hostOf : String → String) (cfg : Config) (store : Store) :
    InitSitesRun :=
  if cfg.multisiteEnabled && cfg.multisiteGlobalRoot == "" then
    ⟨false, [],
     some "A Global Hostname must be configured with multisite turned on.", false⟩
  else
    ⟨true,
     (getAllSites store).map SiteRecord.toRouteConfig ++ [globalRouteEntry hostOf cfg],
     none, true⟩

/-- The kind of job a command handler constructs. -/
inductive JobKind
  | siteActivate
  | siteDeactivate
deriving DecidableEq, Repr

/-- A well-formed inbound command payload `{site, jobId}` (the `type` field
is what the command service dispatches on). -/
structure Command where
  site : String
  jobId : String
deriving DecidableEq, Repr

/-- The job a command handler constructs and runs: its class, name, the
initiator flag, the id passed to `job.init`, and the site it targets. -/
structure CommandJob where
  kind : JobKind
  name : String
  runAsInitiator : Bool
  jobId : String
  site : String
deriving DecidableEq, Repr

/-- `SiteService.onActivateSiteCommandReceived(command)` on a well-formed
command: builds a `SiteActivateJob` named `ACTIVATE_SITE_<site>`, sets
`runAsInitiator=false`, initializes it with the command's `jobId`, and runs
it against the command's site. -/
def onActivateSiteCommandReceived (command : Command) : CommandJob :=
  ⟨.siteActivate, "ACTIVATE_SITE_" ++ command.site, false, command.jobId,
   command.site⟩

/-- `SiteService.onDeactivateSiteCommandReceived(command)` on a well-formed
command: builds a `SiteDeactivateJob` named `DEACTIVATE_SITE_<site>`, sets
`runAsInitiator=false`, initializes it with the command's `jobId`, and runs
it against the command's site. -/
def onDeactivateSiteCommandReceived (command : Command) : CommandJob :=
  ⟨.siteDeactivate, "DEACTIVATE_SITE_" ++ command.site, false, command.jobId,
   command.site⟩

/-- A reference to one of the two static command handlers. -/
inductive HandlerRef
  | onActivateSiteCommandReceived
  | onDeactivateSiteCommandReceived
deriving DecidableEq, Repr

/-- Running the referenced handler on a well-formed command. -/
def HandlerRef.dispatch : HandlerRef → Command → CommandJob
  | .onActivateSiteCommandReceived => TribalCMS.onActivateSiteCommandReceived
  | .onDeactivateSiteCommandReceived => TribalCMS.onDeactivateSiteCommandReceived

/-- `SiteService.init()`: the `(type, handler)` registrations it performs on
the command service, in order. The source registers
`onActivateSiteCommandReceived` under type `deactivate_site` and
`onDeactivateSiteCommandReceived` under type `activate_site`. -/
def SiteService.init : List (String × HandlerRef) :=
  [("deactivate_site", .onActivateSiteCommandReceived),
   ("activate_site", .onDeactivateSiteCommandReceived)]

/-- The handler the command service holds for a command type after
`SiteService.init()` ran. -/
def registeredHandlerFor (t : String) : Option HandlerRef :=
  (SiteService.init.find? (fun e => e.1 == t)).map (fun e => e.2)

/-- Routing Registry state: the hostname-keyed map of site configurations.
Modelled from the spec: the registry itself is an external collaborator
(`pb.RequestHandler`), specified as a map keyed by hostname with
last-write-wins per hostname. -/
abbrev Registry := List (String × RouteSiteConfig)

/-- Modelled from the spec: registering a site in the Routing Registry
replaces any entry for the same hostname (keyed by hostname,
last-write-wins, no duplicate entries). -/
def registryLoad (reg : Registry) (site : RouteSiteConfig) : Registry :=
  reg.filter (fun e => e.1 != site.hostname) ++ [(site.hostname, site)]

/-- Persistence plus Routing Registry, the state a job run acts on. -/
structure SystemState where
  store : Store
  registry : Registry
deriving DecidableEq, Repr

/-- A completed job run: the state afterwards and the error (if any)
reported to the completion callback. -/
structure JobRun where
  state : SystemState
  err : Option String
deriving DecidableEq, Repr

/-- Modelled from the spec: `SiteActivateJob.run` is part of this repository
but not under `src/` (only its caller `activateSite` is). Per the spec:
load the site record; if missing, fail with "site not found"; set
`active=true`; persist; then instruct the Routing Registry to register the
hostname-to-config mapping. -/
def siteActivateJobRun (st : SystemState) (siteUid : String) : JobRun :=
  match loadSiteByUid st.store siteUid with
  | none => ⟨st, some "site not found"⟩
  | some site =>
    let site' : SiteRecord := {site with active := true}
    ⟨⟨st.store.map (fun r => if r.uid == siteUid then site' else r),
      registryLoad st.registry site'.toRouteConfig⟩, none⟩

/-- One call of `activateSite`: the job it constructs (class, name,
initiator flag) and the completed run. -/
structure ActivateSiteCall where
  jobKind : JobKind
  jobName : String
  runAsInitiator : Bool
  run : JobRun
deriving DecidableEq, Repr

/-- `SiteService.prototype.activateSite(siteUid, cb)`: constructs a
`SiteActivateJob` named `ACTIVATE_SITE_<uid>` with `runAsInitiator=true`
and runs it. -/
def activateSite (st : SystemState) (siteUid : String) : ActivateSiteCall :=
  ⟨.siteActivate, "ACTIVATE_SITE_" ++ siteUid, true, siteActivateJobRun st siteUid⟩

/-- Claim C1: contrary to the claim, `SiteService.init` registers the
deactivation handler for the type `activate_site` and the activation handler
for `deactivate_site`; the handler the command service holds for an inbound
`activate_site` command therefore constructs and runs a `SiteDeactivateJob`
(with `runAsInitiator=false` and the command's job id), not a
`SiteActivateJob`. -/
theorem init_registers_swapped_handlers :
    registeredHandlerFor "activate_site" =
      some HandlerRef.onDeactivateSiteCommandReceived
    ∧ registeredHandlerFor "deactivate_site" =
      some HandlerRef.onActivateSiteCommandReceived
    ∧ HandlerRef.dispatch HandlerRef.onDeactivateSiteCommandReceived ⟨"s1", "j1"⟩ =
      ⟨JobKind.siteDeactivate, "DEACTIVATE_SITE_s1", false, "j1", "s1"⟩ :=
  ⟨rfl, rfl, rfl⟩

/-- Claim C2: contrary to the claim's final part, on a persisted record with
`active=true` the run of `startAcceptingSiteTraffic` leaves the store
unchanged and calls the Routing Registry's `activateSite` with the loaded
record, but then throws a `ReferenceError` on the undeclared variable
`result` instead of invoking the callback with a success value. -/
theorem startAcceptingSiteTraffic_success_branch_throws :
    startAcceptingSiteTraffic
        [⟨"oid1", "site-1", "Acme", "acme.example.com", true⟩] "site-1" =
      ⟨[⟨"oid1", "site-1", "Acme", "acme.example.com", true⟩],
       [⟨"oid1", "site-1", "Acme", "acme.example.com", true⟩], [],
       .thrownReferenceError "result"⟩ :=
  rfl

/-- Claim C6: `getByUid` on a falsy or global uid issues no storage query and
returns the synthesized global record built from the configured site name and
site root; on any other uid it queries storage and returns the record loaded
by uid. -/
theorem getByUid_contract :
    ∀ (cfg : Config) (store : Store) (uid : JsId),
      (isGlobal uid = true →
        getByUid cfg store uid =
          ⟨false, .synthesized ⟨cfg.siteName, cfg.siteRoot, GLOBAL_SITE⟩⟩)
      ∧ (∀ s : String, uid = .str s → isGlobal uid = false →
        getByUid cfg store uid = ⟨true, .loaded (loadSiteByUid store s)⟩) := by
  intro cfg store uid
  constructor
  · intro h
    unfold getByUid
    rw [if_pos]
    exact h
  · rintro s rfl h
    unfold getByUid
    rw [if_neg]
    · have : (fun r : SiteRecord => JsId.str r.uid == JsId.str s) =
          (fun r : SiteRecord => r.uid == s) := by
        funext r
        simp [JsId.str.injEq]
      rw [this]
      rfl
    · intro hc
      rw [isGlobal] at h
      exact absurd hc (by simp [h])

/-- Witness for claim C6 at concrete inputs: a global uid and an unknown
tenant uid. -/
theorem getByUid_contract_witness :
    getByUid ⟨"MySite", "http://example.com", false, ""⟩ [] (JsId.str "global") =
      ⟨false, .synthesized ⟨"MySite", "http://example.com", "global"⟩⟩
    ∧ getByUid ⟨"MySite", "http://example.com", false, ""⟩ [] (JsId.str "s1") =
      ⟨true, .loaded none⟩ :=
  ⟨(getByUid_contract _ _ _).1 (by decide),
   (getByUid_contract _ _ _).2 "s1" rfl (by decide)⟩

/-- Claim C10: `areEqual` is true exactly when both identifiers are global or
they are strictly equal; it is reflexive, symmetric and transitive, and the
global sentinels collapse into one class, e.g. the empty string and
`'global'` compare equal. -/
theorem areEqual_characterization :
    (∀ a b : JsId, areEqual a b = true ↔
      ((isGlobal a = true ∧ isGlobal b = true) ∨ a = b))
    ∧ (∀ a : JsId, areEqual a a = true)
    ∧ (∀ a b : JsId, areEqual a b = areEqual b a)
    ∧ (∀ a b c : JsId, areEqual a b = true → areEqual b c = true →
        areEqual a c = true)
    ∧ areEqual (JsId.str "") (JsId.str GLOBAL_SITE) = true := by
  have key : ∀ a b : JsId, areEqual a b = true ↔
      ((isGlobal a = true ∧ isGlobal b = true) ∨ a = b) := by
    intro a b
    unfold areEqual
    by_cases h : (isGlobal a && isGlobal b) = true
    · rw [if_pos h]
      simp only [Bool.and_eq_true] at h
      exact ⟨fun _ => Or.inl h, fun _ => rfl⟩
    · rw [if_neg h]
      constructor
      · intro hb
        exact Or.inr (by simpa using hb)
      · rintro (hg | rfl)
        · exact absurd (by simp [hg.1, hg.2]) h
        · simp
  have hsymm : ∀ a b : JsId, areEqual a b = true → areEqual b a = true := by
    intro a b h
    rcases (key a b).mp h with ⟨h1, h2⟩ | rfl
    · exact (key b a).mpr (Or.inl ⟨h2, h1⟩)
    · exact h
  refine ⟨key, ?_, ?_, ?_, ?_⟩
  · intro a
    exact (key a a).mpr (Or.inr rfl)
  · intro a b
    cases h1 : areEqual a b <;> cases h2 : areEqual b a
    · rfl
    · have := hsymm b a h2
      rw [h1] at this
      exact this
    · have := hsymm a b h1
      rw [h2] at this
      exact this.symm
    · rfl
  · intro a b c hab hbc
    rcases (key a b).mp hab with ⟨ha, hb⟩ | rfl
    · rcases (key b c).mp hbc with ⟨hb2, hc⟩ | rfl
      · exact (key a c).mpr (Or.inl ⟨ha, hc⟩)
      · exact (key a b).mpr (Or.inl ⟨ha, hb⟩)
    · exact hbc
  · exact (key _ _).mpr (Or.inl ⟨by decide, by decide⟩)

/-- Witness for claim C10: the transitivity part applied at concrete global
sentinels. -/
theorem areEqual_characterization_witness :
    areEqual JsId.null (JsId.str "global") = true :=
  areEqual_characterization.2.2.2.1 JsId.null (JsId.str "") (JsId.str "global")
    (by decide) (by decide)

/-- Claim C7: `getSiteMap` partitions the persisted sites: every record
returned by `getAllSites` lies in exactly one of the two sets, and the two
sets together are a permutation of `getAllSites`. -/
theorem getSiteMap_partition :
    ∀ store : Store,
      (∀ s ∈ getAllSites store,
        (s ∈ (getSiteMap store).active ∧ s ∉ (getSiteMap store).inactive) ∨
        (s ∉ (getSiteMap store).active ∧ s ∈ (getSiteMap store).inactive))
      ∧ ((getSiteMap store).active ++ (getSiteMap store).inactive).Perm
          (getAllSites store) := by
  intro store
  constructor
  · intro s hs
    by_cases h : s.active = true
    · left
      constructor
      · exact List.mem_filter.mpr ⟨hs, h⟩
      · intro hmem
        have := (List.mem_filter.mp hmem).2
        rw [h] at this
        exact absurd this (by decide)
    · right
      have hf : s.active = false := by
        cases hsa : s.active
        · rfl
        · exact absurd hsa h
      constructor
      · intro hmem
        exact h (List.mem_filter.mp hmem).2
      · exact List.mem_filter.mpr ⟨hs, by rw [hf]; rfl⟩
  · simpa [getSiteMap, getActiveSites, getInactiveSites, getAllSites] using
      List.filter_append_perm (fun r => r.active) store

/-- Witness for claim C7 at a concrete two-record store. -/
theorem getSiteMap_partition_witness :
    ((getSiteMap [⟨"o1", "s1", "A", "a.example.com", true⟩,
                  ⟨"o2", "s2", "B", "b.example.com", false⟩]).active ++
     (getSiteMap [⟨"o1", "s1", "A", "a.example.com", true⟩,
                  ⟨"o2", "s2", "B", "b.example.com", false⟩]).inactive).Perm
      (getAllSites [⟨"o1", "s1", "A", "a.example.com", true⟩,
                    ⟨"o2", "s2", "B", "b.example.com", false⟩]) :=
  (getSiteMap_partition _).2

/-- Claim C3: `startAcceptingSiteTraffic` fails through the callback with
"Site not found" when no record matches the uid and with "Site not active"
when the record matches but has `active=false`; in both cases the store is
unchanged and no Routing Registry call is made. -/
theorem startAcceptingSiteTraffic_precondition_failures :
    ∀ (store : Store) (siteUid : String),
      (loadSiteByUid store siteUid = none →
        startAcceptingSiteTraffic store siteUid =
          ⟨store, [], [], .callbackError "Site not found"⟩)
      ∧ (∀ site : SiteRecord, loadSiteByUid store siteUid = some site →
          site.active = false →
        startAcceptingSiteTraffic store siteUid =
          ⟨store, [], [], .callbackError "Site not active"⟩) := by
  intro store siteUid
  constructor
  · intro h
    unfold startAcceptingSiteTraffic
    rw [h]
  · intro site h hact
    unfold startAcceptingSiteTraffic
    rw [h]
    simp [hact]

/-- Witness for claim C3: a store without the requested uid and a store
holding it inactive. -/
theorem startAcceptingSiteTraffic_precondition_failures_witness :
    startAcceptingSiteTraffic [] "s1" =
      ⟨[], [], [], .callbackError "Site not found"⟩
    ∧ startAcceptingSiteTraffic [⟨"o1", "s1", "A", "a.example.com", false⟩] "s1" =
      ⟨[⟨"o1", "s1", "A", "a.example.com", false⟩], [], [],
       .callbackError "Site not active"⟩ :=
  ⟨(startAcceptingSiteTraffic_precondition_failures [] "s1").1 rfl,
   (startAcceptingSiteTraffic_precondition_failures _ "s1").2
     ⟨"o1", "s1", "A", "a.example.com", false⟩ (by decide) rfl⟩

/-- A filtered list has nonzero length exactly when some element of the list
satisfies the filter. -/
theorem filter_length_ne_zero_iff (p : SiteRecord → Bool) (l : List SiteRecord) :
    (l.filter p).length ≠ 0 ↔ ∃ r ∈ l, p r = true := by
  constructor
  · intro h
    rcases List.exists_mem_of_length_pos (Nat.pos_of_ne_zero h) with ⟨a, ha⟩
    exact ⟨a, (List.mem_filter.mp ha).1, (List.mem_filter.mp ha).2⟩
  · rintro ⟨r, hr, hp⟩
    exact Nat.pos_iff_ne_zero.mp
      (List.length_pos_of_mem (List.mem_filter.mpr ⟨hr, hp⟩))

/-- The uniqueness check answers true exactly when some non-excluded record
collides on the lowercased display name or on the lowercased hostname. -/
theorem taken_iff_collision (store : Store) (displayName hostname : String)
    (id : Option String) :
    isDisplayNameOrHostnameTaken store displayName hostname id = true ↔
      (∃ r ∈ store, excludeKeep id r = true ∧
        jsToLowerCase r.displayName = jsToLowerCase displayName) ∨
      (∃ r ∈ store, excludeKeep id r = true ∧ r.hostname = jsToLowerCase hostname) := by
  simp only [isDisplayNameOrHostnameTaken, getExistingDisplayNameHostnameCounts,
    Bool.or_eq_true, decide_eq_true_eq, gt_iff_lt, Nat.pos_iff_ne_zero]
  rw [filter_length_ne_zero_iff, filter_length_ne_zero_iff]
  constructor
  · rintro (⟨r, hr, hp⟩ | ⟨r, hr, hp⟩)
    · rw [Bool.and_eq_true] at hp
      exact Or.inl ⟨r, hr, hp.1, by simpa using hp.2⟩
    · rw [Bool.and_eq_true] at hp
      exact Or.inr ⟨r, hr, hp.1, by simpa using hp.2⟩
  · rintro (⟨r, hr, hk, he⟩ | ⟨r, hr, hk, he⟩)
    · exact Or.inl ⟨r, hr, by simp [hk, he]⟩
    · exact Or.inr ⟨r, hr, by simp [hk, he]⟩

/-- Claim C5: the uniqueness check is true exactly when one of the two counts
is nonzero; those counts see the display name as an anchored case-insensitive
exact match and exclude the record carrying a supplied (truthy) exclusion id
from both counts. -/
theorem isDisplayNameOrHostnameTaken_characterization :
    ∀ (store : Store) (displayName hostname : String) (id : Option String),
      (isDisplayNameOrHostnameTaken store displayName hostname id = true ↔
        (getExistingDisplayNameHostnameCounts store displayName hostname id).1 ≠ 0 ∨
        (getExistingDisplayNameHostnameCounts store displayName hostname id).2 ≠ 0)
      ∧ (isDisplayNameOrHostnameTaken store displayName hostname id = true ↔
        (∃ r ∈ store, excludeKeep id r = true ∧
          jsToLowerCase r.displayName = jsToLowerCase displayName) ∨
        (∃ r ∈ store, excludeKeep id r = true ∧ r.hostname = jsToLowerCase hostname))
      ∧ (∀ i : String, id = some i → i ≠ "" →
        getExistingDisplayNameHostnameCounts store displayName hostname id =
          getExistingDisplayNameHostnameCounts
            (store.filter (fun r => r.dbId != i)) displayName hostname none) := by
  intro store displayName hostname id
  refine ⟨?_, taken_iff_collision store displayName hostname id, ?_⟩
  · simp only [isDisplayNameOrHostnameTaken, Bool.or_eq_true, decide_eq_true_eq,
      gt_iff_lt, Nat.pos_iff_ne_zero]
  · rintro i rfl hne
    have hb : (i != "") = true := by simpa using hne
    have hfix : ∀ f : SiteRecord → Bool,
        store.filter (fun r => excludeKeep (some i) r && f r) =
        (store.filter (fun r => r.dbId != i)).filter
          (fun r => excludeKeep none r && f r) := by
      intro f
      rw [List.filter_filter]
      apply List.filter_congr
      intro r _
      simp [excludeKeep, hb, Bool.and_comm]
    simp only [getExistingDisplayNameHostnameCounts]
    rw [hfix, hfix]

/-- Witness for claim C5: with exclusion id "o1" the only record is removed
from the counting queries. -/
theorem isDisplayNameOrHostnameTaken_characterization_witness :
    getExistingDisplayNameHostnameCounts
        [⟨"o1", "s1", "Acme", "acme.example.com", true⟩] "acme" "x.example.com"
        (some "o1") =
      getExistingDisplayNameHostnameCounts
        ([⟨"o1", "s1", "Acme", "acme.example.com", true⟩].filter
          (fun r => r.dbId != "o1")) "acme" "x.example.com" none :=
  (isDisplayNameOrHostnameTaken_characterization _ _ _ _).2.2 "o1" rfl (by decide)

/-- Claim C4 as amended: when the proposed display name collides up to
letter case with a non-excluded persisted record, or the stored hostname of
a non-excluded persisted record equals the lowercased proposed hostname,
`createSite` reports the validation failure through the callback and writes
nothing: the store is unchanged and no record is handed back. (The claim's
wider reading — hostname collisions in any letter case — is refuted below:
the validator compares the raw stored hostname against the lowercased
input, so it misses collisions whenever the stored hostname contains an
uppercase letter.) -/
theorem createSite_collision_no_write :
    ∀ (store : Store) (genUid genDbId : String) (site : SiteInput)
      (id : Option String),
      ((∃ r ∈ store, excludeKeep id r = true ∧
          jsToLowerCase r.displayName = jsToLowerCase site.displayName) ∨
       (∃ r ∈ store, excludeKeep id r = true ∧
          r.hostname = jsToLowerCase site.hostname)) →
      createSite store genUid genDbId site id = ⟨store, true, none⟩ := by
  intro store genUid genDbId site id h
  unfold createSite
  rw [if_pos ((taken_iff_collision store site.displayName site.hostname id).mpr h)]

/-- Witness for claim C4: creating "ACME" collides case-insensitively with
the persisted "Acme" and performs no write. -/
theorem createSite_collision_no_write_witness :
    createSite [⟨"o1", "s1", "Acme", "acme.example.com", false⟩] "s2" "o2"
        ⟨"ACME", "other.example.com"⟩ none =
      ⟨[⟨"o1", "s1", "Acme", "acme.example.com", false⟩], true, none⟩ :=
  createSite_collision_no_write _ _ _ _ _
    (Or.inl ⟨⟨"o1", "s1", "Acme", "acme.example.com", false⟩,
      List.mem_singleton.mpr rfl, rfl, by decide⟩)

/-- Counterexample to claim C4 as stated: the proposed hostname "FOO.com"
collides letter-for-letter (so in particular in any letter case) with the
persisted record's hostname "FOO.com", yet because the validator compares
the raw stored hostname against the lowercased input ("foo.com"), the check
passes and `createSite` writes the new record with no failure reported. -/
theorem createSite_hostname_collision_missed :
    (∃ r ∈ ([⟨"o1", "s1", "Acme", "FOO.com", false⟩] : Store),
      r.hostname = "FOO.com")
    ∧ createSite [⟨"o1", "s1", "Acme", "FOO.com", false⟩] "s2" "o2"
        ⟨"Other", "FOO.com"⟩ none =
      ⟨[⟨"o1", "s1", "Acme", "FOO.com", false⟩,
        ⟨"o2", "s2", "Other", "FOO.com", false⟩], false,
       some ⟨"o2", "s2", "Other", "FOO.com", false⟩⟩ :=
  ⟨⟨⟨"o1", "s1", "Acme", "FOO.com", false⟩, List.mem_singleton.mpr rfl, rfl⟩,
   by decide⟩

/-- Claim C9: with multisite enabled and no global hostname configured,
`initSites` fails with the configuration error before querying or
registering anything; otherwise it reports success after registering every
persisted site regardless of its `active` flag plus the synthesized global
entry. -/
theorem initSites_contract :
    ∀ (hostOf : String → String) (cfg : Config) (store : Store),
      (cfg.multisiteEnabled = true → cfg.multisiteGlobalRoot = "" →
        initSites hostOf cfg store =
          ⟨false, [],
           some "A Global Hostname must be configured with multisite turned on.",
           false⟩)
      ∧ ((cfg.multisiteEnabled = false ∨ cfg.multisiteGlobalRoot ≠ "") →
        (initSites hostOf cfg store).cbError = none
        ∧ (initSites hostOf cfg store).cbOk = true
        ∧ (∀ s ∈ getAllSites store,
            s.toRouteConfig ∈ (initSites hostOf cfg store).loadSiteCalls)
        ∧ globalRouteEntry hostOf cfg ∈ (initSites hostOf cfg store).loadSiteCalls) := by
  intro hostOf cfg store
  constructor
  · intro hm hg
    unfold initSites
    rw [if_pos]
    rw [hm, hg]
    rfl
  · intro h
    have hcond : (cfg.multisiteEnabled && cfg.multisiteGlobalRoot == "") = false := by
      rcases h with h | h
      · rw [h]
        rfl
      · cases hM : cfg.multisiteEnabled
        · rfl
        · have : (cfg.multisiteGlobalRoot == "") = false := by
            simpa using h
          rw [this]
          rfl
    unfold initSites
    rw [hcond]
    refine ⟨rfl, rfl, ?_, ?_⟩
    · intro s hs
      show s.toRouteConfig ∈
        (getAllSites store).map SiteRecord.toRouteConfig ++ [globalRouteEntry hostOf cfg]
      exact List.mem_append.mpr (Or.inl (List.mem_map.mpr ⟨s, hs, rfl⟩))
    · show globalRouteEntry hostOf cfg ∈
        (getAllSites store).map SiteRecord.toRouteConfig ++ [globalRouteEntry hostOf cfg]
      exact List.mem_append.mpr (Or.inr (List.mem_singleton.mpr rfl))

/-- Witness for claim C9: both branches at concrete configurations, with the
identity as host extraction. -/
theorem initSites_contract_witness :
    initSites (fun s => s) ⟨"n", "http://r.example.com", true, ""⟩
        [⟨"o1", "s1", "A", "a.example.com", false⟩] =
      ⟨false, [],
       some "A Global Hostname must be configured with multisite turned on.",
       false⟩
    ∧ (⟨"A", "s1", "a.example.com", false⟩ : RouteSiteConfig) ∈
        (initSites (fun s => s) ⟨"n", "http://r.example.com", false, ""⟩
          [⟨"o1", "s1", "A", "a.example.com", false⟩]).loadSiteCalls :=
  ⟨(initSites_contract (fun s => s) ⟨"n", "http://r.example.com", true, ""⟩
      [⟨"o1", "s1", "A", "a.example.com", false⟩]).1 rfl rfl,
   ((initSites_contract (fun s => s) ⟨"n", "http://r.example.com", false, ""⟩
      [⟨"o1", "s1", "A", "a.example.com", false⟩]).2 (Or.inl rfl)).2.2.1
     ⟨"o1", "s1", "A", "a.example.com", false⟩ (List.mem_singleton.mpr rfl)⟩

/-- Unfolding of the activation job run when the site record is found. -/
theorem siteActivateJobRun_found (store : Store) (reg : Registry)
    (siteUid : String) (site : SiteRecord)
    (h : loadSiteByUid store siteUid = some site) :
    siteActivateJobRun ⟨store, reg⟩ siteUid =
      ⟨⟨store.map (fun r =>
          if r.uid == siteUid then ({site with active := true} : SiteRecord) else r),
        registryLoad reg ({site with active := true} : SiteRecord).toRouteConfig⟩,
       none⟩ := by
  unfold siteActivateJobRun
  rw [show loadSiteByUid (SystemState.store ⟨store, reg⟩) siteUid =
    some site from h]

/-- After replacing every record matching the uid, the record loaded for that
uid is the replacement. -/
theorem find?_uid_map_set (siteUid : String) (site' : SiteRecord)
    (hu : (site'.uid == siteUid) = true) :
    ∀ (t : Store) (site : SiteRecord),
      loadSiteByUid t siteUid = some site →
      loadSiteByUid
        (t.map (fun r => if r.uid == siteUid then site' else r)) siteUid =
        some site' := by
  intro t
  unfold loadSiteByUid
  induction t with
  | nil =>
    intro site h
    simp [List.find?] at h
  | cons a t ih =>
    intro site h
    simp only [List.map_cons]
    by_cases ha : (a.uid == siteUid) = true
    · rw [if_pos ha]
      simp only [List.find?_cons, hu]
    · rw [if_neg ha]
      have ha' : (a.uid == siteUid) = false := by
        cases hq : (a.uid == siteUid)
        · rfl
        · exact absurd hq ha
      simp only [List.find?_cons, ha'] at h ⊢
      exact ih site h

/-- Replacing the matching records a second time changes nothing. -/
theorem map_set_idem (siteUid : String) (site' : SiteRecord)
    (hu : (site'.uid == siteUid) = true) (t : Store) :
    (t.map (fun r => if r.uid == siteUid then site' else r)).map
      (fun r => if r.uid == siteUid then site' else r) =
    t.map (fun r => if r.uid == siteUid then site' else r) := by
  rw [List.map_map]
  have hf : ((fun r : SiteRecord => if r.uid == siteUid then site' else r) ∘
      (fun r : SiteRecord => if r.uid == siteUid then site' else r)) =
      (fun r : SiteRecord => if r.uid == siteUid then site' else r) := by
    funext r
    by_cases hr : (r.uid == siteUid) = true
    · simp [Function.comp, hr, hu]
    · simp [Function.comp, hr]
  rw [hf]

/-- Loading the same configuration twice into the Routing Registry is
idempotent. -/
theorem registryLoad_idem (reg : Registry) (s : RouteSiteConfig) :
    registryLoad (registryLoad reg s) s = registryLoad reg s := by
  unfold registryLoad
  rw [List.filter_append, List.filter_filter]
  simp

/-- After a load, the registry holds exactly one entry keyed by the loaded
hostname. -/
theorem registryLoad_single_entry (reg : Registry) (s : RouteSiteConfig) :
    ((registryLoad reg s).filter (fun e => e.1 == s.hostname)).length = 1 := by
  unfold registryLoad
  rw [List.filter_append, List.filter_filter]
  simp

/-- Setting `active=true` on a record that is already active is the
identity. -/
theorem set_active_true_self (x : SiteRecord) (hx : x.active = true) :
    ({x with active := true} : SiteRecord) = x := by
  cases x
  simp_all

/-- Claim C8: on a uid whose record exists, running `activateSite` twice is
idempotent: both runs report no error, the second run leaves the state of
the first run unchanged, every record for the uid is persisted with
`active=true`, and the Routing Registry holds a single entry for the site's
hostname. -/
theorem activateSite_idempotent :
    ∀ (st : SystemState) (siteUid : String) (site : SiteRecord),
      loadSiteByUid st.store siteUid = some site →
      ((activateSite st siteUid).run.err = none
      ∧ (activateSite (activateSite st siteUid).run.state siteUid).run.err = none
      ∧ (activateSite (activateSite st siteUid).run.state siteUid).run.state =
          (activateSite st siteUid).run.state
      ∧ (∀ r ∈ (activateSite st siteUid).run.state.store, r.uid = siteUid →
          r.active = true)
      ∧ ((activateSite st siteUid).run.state.registry.filter
          (fun e => e.1 == site.hostname)).length = 1) := by
  intro st siteUid site h
  obtain ⟨store0, reg0⟩ := st
  have h0 : loadSiteByUid store0 siteUid = some site := h
  have h0' : store0.find? (fun r => r.uid == siteUid) = some site := h0
  have hsu : (site.uid == siteUid) = true := by
    have hp := List.find?_some h0'
    simpa using hp
  have hu1 : (({site with active := true} : SiteRecord).uid == siteUid) = true := hsu
  have hr1 := siteActivateJobRun_found store0 reg0 siteUid site h0
  have hfind1 := find?_uid_map_set siteUid ({site with active := true}) hu1
    store0 site h0
  have hr2 := siteActivateJobRun_found
    (store0.map (fun r =>
      if r.uid == siteUid then ({site with active := true} : SiteRecord) else r))
    (registryLoad reg0 ({site with active := true} : SiteRecord).toRouteConfig)
    siteUid ({site with active := true}) hfind1
  rw [set_active_true_self ({site with active := true} : SiteRecord) rfl] at hr2
  rw [map_set_idem siteUid ({site with active := true}) hu1 store0] at hr2
  rw [registryLoad_idem reg0 (({site with active := true} : SiteRecord).toRouteConfig)]
    at hr2
  simp only [activateSite, hr1, hr2]
  refine ⟨trivial, trivial, trivial, ?_, ?_⟩
  · intro r hr hru
    rcases List.mem_map.mp hr with ⟨a, ha, rfl⟩
    by_cases haq : (a.uid == siteUid) = true
    · rw [if_pos haq] at hru ⊢
    · rw [if_neg haq] at hru ⊢
      exact absurd (beq_iff_eq.mpr hru) haq
  · exact registryLoad_single_entry reg0
      (({site with active := true} : SiteRecord).toRouteConfig)

/-- Witness for claim C8 at a concrete one-record state. -/
theorem activateSite_idempotent_witness :
    (activateSite ⟨[⟨"o1", "s1", "Acme", "acme.example.com", false⟩], []⟩
      "s1").run.err = none :=
  (activateSite_idempotent
    ⟨[⟨"o1", "s1", "Acme", "acme.example.com", false⟩], []⟩ "s1"
    ⟨"o1", "s1", "Acme", "acme.example.com", false⟩ rfl).1

end TribalCMS
